import Mathlib

/-!
Verification of `generate_miescattering_water.py` (Mie scattering data
generation for liquid-water droplets).

The script's numeric values are embedded over `ℚ` (exact arithmetic standing
for the script's real-valued computations) and, where transcendental
operations occur (`10 ** x`, `log10`), over `ℝ` with `Real.rpow`/`Real.logb`.
The per-radius Mie engine (`gmf.calc_arts_scattering_data`) and the
phase-function integrator (`gmf.integrate_phasefunction_for_testing`) live in
a module that is not part of this repository snapshot; where a claim depends
on their behaviour they are modelled from the specification and marked as
such in their doc comments.  Everything else is translated directly from the
source file.
-/

set_option maxRecDepth 1000000

/-! ## Radius grid (src lines 59-64)

`a = np.ceil(10 ** np.arange(0, 1, 0.1) * 4) / 4`
`b = 10 ** (np.arange(-7, -2.0))`
`droplet_radii = np.sort(np.ravel(np.outer(a, b)))`
`droplet_radii = droplet_radii[droplet_radii < 5e-3]`
-/

/-- The ceiling `⌈4 · 10^(j/10)⌉` as a natural number, characterised without
transcendental arithmetic: it is the least `n` with `4^10 · 10^j ≤ n^10`
(tenth powers are strictly monotone on nonnegative reals, so this condition
is equivalent to `4 · 10^(j/10) ≤ n`).  The search bound 33 suffices for
`j ≤ 9`, where the ceiling is at most 32; the fallback `4 · 10^j` (a trivial
upper bound for `4 · 10^(j/10)` whose tenth power dominates `4^10 · 10^j`)
keeps the function total.  The floating-point evaluation in the script
rounds identically because none of the values `4 · 10^(j/10)` is within
`10^-2` of an integer. -/
def ceil4pow10 (j : Nat) : Nat :=
  (((List.range 33).filter (fun n => 4 ^ 10 * 10 ^ j ≤ n ^ 10)).head?).getD (4 * 10 ^ j)

/-- The coarse multiplier sequence `a = np.ceil(10 ** np.arange(0, 1, 0.1) * 4) / 4`
(src line 59): `np.arange(0, 1, 0.1)` yields the ten exponents `j/10`,
`j = 0..9`. -/
def a_multipliers : List ℚ := (List.range 10).map (fun j => (ceil4pow10 j : ℚ) / 4)

/-- The decade sequence `b = 10 ** (np.arange(-7, -2.0))` (src line 60):
`np.arange(-7, -2.0)` yields `[-7, -6, -5, -4, -3]`. -/
def b_decades : List ℚ := (List.range 5).map (fun d => (10 : ℚ) ^ (-7 + (d : ℤ)))

/-- `np.ravel(np.outer(a, b))`: the outer product flattened row-major
(src line 61). -/
def outerRavel (a b : List ℚ) : List ℚ := (a.map (fun x => b.map (fun y => x * y))).flatten

/-- Insertion of an element into an ascending list; helper for `sortAsc`. -/
def insertAsc (x : ℚ) : List ℚ → List ℚ
  | [] => [x]
  | y :: ys => if x ≤ y then x :: y :: ys else y :: insertAsc x ys

/-- `np.sort` (ascending) modelled as insertion sort (src line 61). -/
def sortAsc (l : List ℚ) : List ℚ := l.foldr insertAsc []

/-- `droplet_radii` before the 5 mm filter: `np.sort(np.ravel(np.outer(a, b)))`
(src line 61). -/
def droplet_radii_unfiltered : List ℚ := sortAsc (outerRavel a_multipliers b_decades)

/-- `droplet_radii = droplet_radii[droplet_radii < 5e-3]` (src line 64):
radii of at least 5 mm are removed. -/
def droplet_radii : List ℚ :=
  droplet_radii_unfiltered.filter (fun r => decide (r < 5 / 1000))

/-- The 50 sorted radius candidates, written out as explicit rationals (meters);
evaluation bridge for the kernel. -/
def radiiLit50 : List ℚ := [1 / 10000000, 3 / 20000000, 7 / 40000000, 1 / 5000000, 11 / 40000000, 13 / 40000000, 1 / 2500000, 21 / 40000000, 13 / 20000000, 1 / 1250000, 1 / 1000000, 3 / 2000000, 7 / 4000000, 1 / 500000, 11 / 4000000, 13 / 4000000, 1 / 250000, 21 / 4000000, 13 / 2000000, 1 / 125000, 1 / 100000, 3 / 200000, 7 / 400000, 1 / 50000, 11 / 400000, 13 / 400000, 1 / 25000, 21 / 400000, 13 / 200000, 1 / 12500, 1 / 10000, 3 / 20000, 7 / 40000, 1 / 5000, 11 / 40000, 13 / 40000, 1 / 2500, 21 / 40000, 13 / 20000, 1 / 1250, 1 / 1000, 3 / 2000, 7 / 4000, 1 / 500, 11 / 4000, 13 / 4000, 1 / 250, 21 / 4000, 13 / 2000, 1 / 125]

/-- The 47 retained radii (those below 5 mm), written out as explicit
rationals (meters). -/
def radiiLit47 : List ℚ := [1 / 10000000, 3 / 20000000, 7 / 40000000, 1 / 5000000, 11 / 40000000, 13 / 40000000, 1 / 2500000, 21 / 40000000, 13 / 20000000, 1 / 1250000, 1 / 1000000, 3 / 2000000, 7 / 4000000, 1 / 500000, 11 / 4000000, 13 / 4000000, 1 / 250000, 21 / 4000000, 13 / 2000000, 1 / 125000, 1 / 100000, 3 / 200000, 7 / 400000, 1 / 50000, 11 / 400000, 13 / 400000, 1 / 25000, 21 / 400000, 13 / 200000, 1 / 12500, 1 / 10000, 3 / 20000, 7 / 40000, 1 / 5000, 11 / 40000, 13 / 40000, 1 / 2500, 21 / 40000, 13 / 20000, 1 / 1250, 1 / 1000, 3 / 2000, 7 / 4000, 1 / 500, 11 / 4000, 13 / 4000, 1 / 250]

unseal Rat.mul Rat.inv in
lemma droplet_radii_unfiltered_eval : droplet_radii_unfiltered = radiiLit50 := by decide

unseal Rat.mul Rat.inv in
lemma droplet_radii_eval : droplet_radii = radiiLit47 := by decide

unseal Rat.mul Rat.inv in
lemma radiiLit47_pairwise : List.Pairwise (· < ·) radiiLit47 := by decide

unseal Rat.mul Rat.inv in
lemma dedup_filter_eval :
    (radiiLit50.dedup).filter (fun r => decide (r < 5 / 1000)) = radiiLit47 := by decide

unseal Rat.mul Rat.inv in
lemma radiiLit47_below_bound : radiiLit47.all (fun r => decide (r < 5 / 1000)) = true := by
  decide

unseal Rat.mul Rat.inv in
lemma excluded_candidates :
    (radiiLit50.filter (fun r => decide (¬ r < 5 / 1000))).all
      (fun r => decide (r ∉ radiiLit47)) = true := by decide

/-- Claim C1: the radius grid is built as the outer product of the coarse
multiplier sequence and the decade sequence, flattened, sorted ascending,
deduplicated (a no-op here, as the 50 candidates are pairwise distinct), and
filtered so that every retained radius is below `5·10⁻³` m; every candidate
at or above that bound is excluded. -/
theorem radius_grid_pipeline :
    droplet_radii
      = ((sortAsc (outerRavel a_multipliers b_decades)).dedup).filter
          (fun r => decide (r < 5 / 1000))
    ∧ droplet_radii.all (fun r => decide (r < 5 / 1000)) = true
    ∧ (droplet_radii_unfiltered.filter (fun r => decide (¬ r < 5 / 1000))).all
        (fun r => decide (r ∉ droplet_radii)) = true := by
  have hu : sortAsc (outerRavel a_multipliers b_decades) = radiiLit50 :=
    droplet_radii_unfiltered_eval
  refine ⟨?_, ?_, ?_⟩
  · rw [hu, dedup_filter_eval, droplet_radii_eval]
  · rw [droplet_radii_eval]; exact radiiLit47_below_bound
  · rw [droplet_radii_unfiltered_eval, droplet_radii_eval]; exact excluded_candidates

unseal Rat.mul Rat.inv in
lemma radiiLit47_length : radiiLit47.length = 47 := by decide

unseal Rat.mul Rat.inv in
lemma radiiLit47_head : radiiLit47.head? = some (1 / 10000000) := by decide

unseal Rat.mul Rat.inv in
lemma radiiLit47_last : radiiLit47.getLast? = some (1 / 250) := by decide

unseal Rat.mul Rat.inv in
lemma removed_five25 : (21 / 4000 : ℚ) ∈ radiiLit50 ∧ (21 / 4000 : ℚ) ∉ radiiLit47 := by
  decide

unseal Rat.mul Rat.inv in
lemma removed_six5 : (13 / 2000 : ℚ) ∈ radiiLit50 ∧ (13 / 2000 : ℚ) ∉ radiiLit47 := by
  decide

unseal Rat.mul Rat.inv in
lemma removed_eight : (1 / 125 : ℚ) ∈ radiiLit50 ∧ (1 / 125 : ℚ) ∉ radiiLit47 := by
  decide

/-- Claim C10: with the configured multipliers `⌈4·10^(j/10)⌉/4`, `j = 0..9`,
and decades `10⁻⁷..10⁻³` m, the built radius grid has exactly 47 strictly
increasing radii, minimum `10⁻⁷` m and maximum `4·10⁻³` m; the candidates
`5.25·10⁻³`, `6.5·10⁻³` and `8·10⁻³` m are produced by the outer product but
removed by the 5 mm filter. -/
theorem radius_grid_contents :
    droplet_radii.length = 47
    ∧ List.Chain' (· < ·) droplet_radii
    ∧ droplet_radii.head? = some (1 / 10000000)
    ∧ droplet_radii.getLast? = some (1 / 250)
    ∧ ((21 / 4000 : ℚ) ∈ droplet_radii_unfiltered ∧ (21 / 4000 : ℚ) ∉ droplet_radii)
    ∧ ((13 / 2000 : ℚ) ∈ droplet_radii_unfiltered ∧ (13 / 2000 : ℚ) ∉ droplet_radii)
    ∧ ((1 / 125 : ℚ) ∈ droplet_radii_unfiltered ∧ (1 / 125 : ℚ) ∉ droplet_radii) := by
  rw [droplet_radii_eval, droplet_radii_unfiltered_eval]
  exact ⟨radiiLit47_length, (List.chain'_iff_pairwise).mpr radiiLit47_pairwise,
    radiiLit47_head, radiiLit47_last, removed_five25, removed_six5, removed_eight⟩

/-! ## Frequency grid (src lines 47-53)

`f_min = 1e9`, `f_max = 3e15`, `N_f = 121`,
`f_grid = np.logspace(np.log10(f_min), np.log10(f_max), N_f)`.
-/

/-- `f_min = 1e9` Hz (src line 48). -/
def f_min : ℝ := 1e9

/-- `f_max = 3e15` Hz (src line 49). -/
def f_max : ℝ := 3e15

/-- `N_f = 121` (src line 52). -/
def N_f : ℕ := 121

/-- `np.logspace(lo, hi, n)`: `n` points `10^(lo + (hi-lo)·i/(n-1))`,
`i = 0..n-1` (endpoints included). -/
noncomputable def logspace (lo hi : ℝ) (n : ℕ) : List ℝ :=
  (List.range n).map (fun (i : ℕ) => (10 : ℝ) ^ (lo + (hi - lo) * (i : ℝ) / ((n : ℝ) - 1)))

/-- `f_grid = np.logspace(np.log10(f_min), np.log10(f_max), N_f)` (src line 53). -/
noncomputable def f_grid : List ℝ := logspace (Real.logb 10 f_min) (Real.logb 10 f_max) N_f

lemma ten_pos : (0 : ℝ) < 10 := by norm_num

lemma ten_ne_one : (10 : ℝ) ≠ 1 := by norm_num

lemma logb_fmax_gt : Real.logb 10 f_min < Real.logb 10 f_max :=
  Real.logb_lt_logb (by norm_num) (by norm_num [f_min]) (by norm_num [f_min, f_max])

/-- Claim C8: the frequency grid has exactly `N_f = 121` points, log-spaced
between `10⁹` Hz and `3·10¹⁵` Hz with both endpoints included, and is
strictly increasing. -/
theorem frequency_grid_spec :
    f_grid.length = 121
    ∧ f_grid.head? = some (1e9 : ℝ)
    ∧ f_grid.getLast? = some (3e15 : ℝ)
    ∧ List.Chain' (· < ·) f_grid := by
  refine ⟨by simp [f_grid, logspace, N_f], ?_, ?_, ?_⟩
  · rw [f_grid, logspace, List.head?_map]
    have h : (List.range N_f).head? = some 0 := by decide
    rw [h]
    simp only [Option.map_some']
    congr 1
    rw [Nat.cast_zero, mul_zero, zero_div, add_zero]
    exact Real.rpow_logb ten_pos ten_ne_one (by norm_num [f_min])
  · rw [f_grid, logspace, List.getLast?_map]
    have h : (List.range N_f).getLast? = some 120 := by decide
    rw [h]
    simp only [Option.map_some']
    congr 1
    have h120 : ((N_f : ℝ) - 1) = 120 := by norm_num [N_f]
    rw [h120]
    have hexp : Real.logb 10 f_min
        + (Real.logb 10 f_max - Real.logb 10 f_min) * ((120 : ℕ) : ℝ) / 120
        = Real.logb 10 f_max := by
      push_cast
      ring
    rw [hexp]
    exact Real.rpow_logb ten_pos ten_ne_one (by norm_num [f_max])
  · rw [f_grid, logspace, List.chain'_map]
    have h121 : N_f = 120 + 1 := by decide
    rw [h121, List.chain'_range_succ]
    intro m hm
    rw [Real.rpow_lt_rpow_left_iff (by norm_num : (1 : ℝ) < 10)]
    have hd : (0 : ℝ) < Real.logb 10 f_max - Real.logb 10 f_min := sub_pos.mpr logb_fmax_gt
    have hc : ((120 + 1 : ℕ) : ℝ) - 1 = 120 := by push_cast; ring
    rw [hc]
    have hmm : (m : ℝ) < ((m + 1 : ℕ) : ℝ) := by push_cast; linarith
    have h1 : (Real.logb 10 f_max - Real.logb 10 f_min) * (m : ℝ)
        < (Real.logb 10 f_max - Real.logb 10 f_min) * ((m + 1 : ℕ) : ℝ) :=
      mul_lt_mul_of_pos_left hmm hd
    linarith [h1]

/-! ## Sub-radius averaging factors (src lines 93, 111-114)

`N_sub = 1`,
`dlog_r = np.mean(np.diff(np.log10(droplet_radii)))`,
`r_sub_fac = 10 ** ((np.linspace(1/(2*N_sub), 1 - 1/(2*N_sub), N_sub) - 0.5) * dlog_r)`.
-/

/-- `N_sub = 1` (src line 93): samples per subdomain. -/
def N_sub : ℕ := 1

/-- `np.linspace(a, b, n)` over ℝ (endpoint included; `n = 1` yields `[a]`,
matching numpy, since the `0/0` junk term is zero). -/
noncomputable def linspaceR (a b : ℝ) (n : ℕ) : List ℝ :=
  (List.range n).map (fun (i : ℕ) => a + (b - a) * (i : ℝ) / ((n : ℝ) - 1))

/-- `dlog_r = np.mean(np.diff(np.log10(droplet_radii)))` (src line 111). -/
noncomputable def dlog_r : ℝ :=
  let logs := droplet_radii.map (fun r => Real.logb 10 (r : ℝ))
  let diffs := List.zipWith (fun a b => b - a) logs logs.tail
  diffs.sum / (diffs.length : ℝ)

/-- `r_sub_fac = 10 ** ((np.linspace(1/(2*N_sub), 1 - 1/(2*N_sub), N_sub) - 0.5) * d)`
(src lines 112-114), for a sub-averaging count `nsub` and log-bin width `d`. -/
noncomputable def r_sub_fac (nsub : ℕ) (d : ℝ) : List ℝ :=
  (linspaceR (1 / (2 * (nsub : ℝ))) (1 - 1 / (2 * (nsub : ℝ))) nsub).map
    (fun x => (10 : ℝ) ^ ((x - 1 / 2) * d))

/-- Modelled from the spec: the Mie evaluation engine
(`gmf.calc_arts_scattering_data`, whose module is not part of this repository
snapshot) computes, for each sub-radius factor `s`, the Mie solver output at
radius `r·s`, and averages the resulting tensors elementwise across the
factors.  One tensor entry is represented as a real-valued function of the
radius. -/
noncomputable def subAveragedMie (solver : ℝ → ℝ) (r : ℝ) (facs : List ℝ) : ℝ :=
  (facs.map (fun s => solver (r * s))).sum / (facs.length : ℝ)

/-- Claim C2: with the configured `N_sub = 1`, the sub-radius factor sequence
degenerates to the single factor `1.0` (whatever the log-bin width `d` is),
so the sub-averaged Mie evaluation reduces to the unaveraged evaluation at
the nominal radius itself. -/
theorem sub_averaging_identity (d : ℝ) (solver : ℝ → ℝ) (r : ℝ) :
    r_sub_fac N_sub d = [1]
    ∧ subAveragedMie solver r (r_sub_fac N_sub d) = solver r := by
  have h1 : r_sub_fac N_sub d = [1] := by
    rw [r_sub_fac, linspaceR]
    show List.map _ (List.map _ (List.range 1)) = [1]
    have hr : List.range 1 = [0] := rfl
    rw [hr, List.map_singleton, List.map_singleton]
    have he : (1 / (2 * (N_sub : ℝ)) + (1 - 1 / (2 * (N_sub : ℝ)) - 1 / (2 * (N_sub : ℝ)))
        * ((0 : ℕ) : ℝ) / ((N_sub : ℝ) - 1) - 1 / 2) * d = 0 := by
      norm_num [N_sub]
    rw [he, Real.rpow_zero]
  refine ⟨h1, ?_⟩
  rw [h1, subAveragedMie]
  simp

/-! ## Record identifiers (src line 122)

`pid = f"MieSphere_R{r_i*1e6:1.5e}um"`: the radius in micrometers, formatted
in scientific notation with five fractional digits and a signed two-digit
exponent.
-/

/-- `⌊log10 q⌋` for the positive rationals arising in this run, characterised
without transcendental arithmetic as the largest `e ∈ [-10, 10]` with
`10^e ≤ q` (all radii in micrometers lie well inside that range). -/
def floorLog10 (q : ℚ) : ℤ :=
  (((List.range 21).map (fun i => (i : ℤ) - 10)).filter
    (fun e => decide ((10 : ℚ) ^ e ≤ q))).foldl max (-10)

/-- Mantissa digits (scaled by `10^5`) and exponent of the scientific
representation `d.ddddd·10^e` of `q`, rounding the mantissa half-up to five
fractional digits; a mantissa that rounds up to `10` carries into the
exponent.  For the radii of this run the mantissa is exact, so the rounding
direction agrees with the float formatting in the script. -/
def sciParts (q : ℚ) : ℕ × ℤ :=
  let e := floorLog10 q
  let d := (q / (10 : ℚ) ^ e * 100000 + 1 / 2).floor.toNat
  if d < 1000000 then (d, e) else (100000, e + 1)

/-- Decimal digits of `n`, left-padded with zeros to width `w`. -/
def natPad (n w : ℕ) : String :=
  let s := toString n
  String.mk (List.replicate (w - s.length) '0') ++ s

/-- The exponent part of the `%1.5e` format: explicit sign and at least two
digits. -/
def expSci (e : ℤ) : String := (if e < 0 then "-" else "+") ++ natPad e.natAbs 2

/-- The Python format `f"{q:1.5e}"` for the positive rationals of this run:
`d.ddddd` followed by `e` and the signed two-digit exponent. -/
def sci5 (q : ℚ) : String :=
  let p := sciParts q
  toString (p.1 / 100000) ++ "." ++ natPad (p.1 % 100000) 5 ++ "e" ++ expSci p.2

/-- `pid = f"MieSphere_R{r_i*1e6:1.5e}um"` (src line 122): the record
identifier built from the radius in micrometers. -/
def pidOf (r : ℚ) : String := "MieSphere_R" ++ sci5 (r * 1000000) ++ "um"

/-- A string is filesystem-safe when every character is alphanumeric or one
of `_`, `.`, `-`, `+` (no separators, no shell metacharacters). -/
def filesystemSafe (s : String) : Bool :=
  s.toList.all (fun c => c.isAlphanum || c == '_' || c == '.' || c == '-' || c == '+')

/-- The 47 record identifiers of the run, written out; evaluation bridge. -/
def pidsLit : List String := ["MieSphere_R1.00000e-01um", "MieSphere_R1.50000e-01um", "MieSphere_R1.75000e-01um", "MieSphere_R2.00000e-01um", "MieSphere_R2.75000e-01um", "MieSphere_R3.25000e-01um", "MieSphere_R4.00000e-01um", "MieSphere_R5.25000e-01um", "MieSphere_R6.50000e-01um", "MieSphere_R8.00000e-01um", "MieSphere_R1.00000e+00um", "MieSphere_R1.50000e+00um", "MieSphere_R1.75000e+00um", "MieSphere_R2.00000e+00um", "MieSphere_R2.75000e+00um", "MieSphere_R3.25000e+00um", "MieSphere_R4.00000e+00um", "MieSphere_R5.25000e+00um", "MieSphere_R6.50000e+00um", "MieSphere_R8.00000e+00um", "MieSphere_R1.00000e+01um", "MieSphere_R1.50000e+01um", "MieSphere_R1.75000e+01um", "MieSphere_R2.00000e+01um", "MieSphere_R2.75000e+01um", "MieSphere_R3.25000e+01um", "MieSphere_R4.00000e+01um", "MieSphere_R5.25000e+01um", "MieSphere_R6.50000e+01um", "MieSphere_R8.00000e+01um", "MieSphere_R1.00000e+02um", "MieSphere_R1.50000e+02um", "MieSphere_R1.75000e+02um", "MieSphere_R2.00000e+02um", "MieSphere_R2.75000e+02um", "MieSphere_R3.25000e+02um", "MieSphere_R4.00000e+02um", "MieSphere_R5.25000e+02um", "MieSphere_R6.50000e+02um", "MieSphere_R8.00000e+02um", "MieSphere_R1.00000e+03um", "MieSphere_R1.50000e+03um", "MieSphere_R1.75000e+03um", "MieSphere_R2.00000e+03um", "MieSphere_R2.75000e+03um", "MieSphere_R3.25000e+03um", "MieSphere_R4.00000e+03um"]

unseal Rat.mul Rat.inv Rat.add Rat.sub in
lemma pids_eval : radiiLit47.map pidOf = pidsLit := by decide

lemma pids_nodup : pidsLit.Nodup := by decide

lemma pids_safe : pidsLit.all filesystemSafe = true := by decide

unseal Rat.mul Rat.inv Rat.add Rat.sub in
lemma pid_first : pidOf (1 / 10000000) = "MieSphere_R1.00000e-01um" := by decide

/-! ## The run model (src lines 90, 117-274)

The per-radius loop: form the identifier, call the Mie engine, optionally
plot diagnostics, write the record pair to its own files, and append it to
the two in-memory archive sequences; afterwards wrap each sequence in a
singleton outer sequence and write the two combined archive files in binary
format.  The single-scattering and meta records built by the external engine
are abstract types `σ` and `μ`; the realized frequency grid and the
phase-function integral (both produced by external `gmf` functions) are
abstracted as functions of the record.
-/

/-- `material = "H2O_liquid"` (src line 68). -/
def material : String := "H2O_liquid"

/-- `plotting = True` (src line 90). -/
def plotting : Bool := true

/-- Output of one engine call: the single-scattering record and the meta
record (abstract — they are produced by the external engine). -/
structure MieOutput (σ μ : Type) where
  ssd : σ
  smd : μ

/-- Accumulated observable state of the run: per-radius data and meta files,
plot files, and the two in-memory archive sequences.  File entries are
(name, content) pairs; plot entries carry the numeric series shown, for the
plots whose content matters to a claim (the normalization-deviation plot),
and an empty payload otherwise. -/
structure RunState (σ μ : Type) where
  dataFiles : List (String × σ)
  metaFiles : List (String × μ)
  plotFiles : List (String × List ℚ)
  ssd_array : List σ
  smd_array : List μ

/-- Empty initial state (src lines 117-118: fresh archive sequences). -/
def initState (σ μ : Type) : RunState σ μ := ⟨[], [], [], [], []⟩

/-- The plot files produced for one radius when plotting is enabled
(src lines 138-244): one phase-matrix figure per realized frequency of index
divisible by 10, the cross-section overview figure, and the phase-function
normalization figure, whose plotted series is the deviation
`(integral/2 − 1)·100` per frequency (src line 228). -/
def plotsFor {σ : Type} (b : Bool) (fgrid integrate : σ → List ℚ) (r : ℚ)
    (ssd : σ) : List (String × List ℚ) :=
  if b then
    ((fgrid ssd).enum.filter (fun p => p.1 % 10 == 0)).map
      (fun _ => ("PhaMat_" ++ pidOf r, ([] : List ℚ)))
    ++ [("optical_properties_" ++ pidOf r ++ ".pdf", [])]
    ++ [("phasefunction_derivation_" ++ pidOf r ++ ".pdf",
          (integrate ssd).map (fun v => (v / 2 - 1) * 100))]
  else []

/-- One iteration of the radius loop (src lines 120-255): plot diagnostics
when enabled, save the record pair to `<pid>.xml` / `<pid>.meta.xml`, append
the pair to the archive sequences.  All channels only grow by appending. -/
def loopStep {σ μ : Type} (b : Bool) (fgrid integrate : σ → List ℚ) (r : ℚ)
    (out : MieOutput σ μ) (s : RunState σ μ) : RunState σ μ :=
  { dataFiles := s.dataFiles ++ [(pidOf r ++ ".xml", out.ssd)]
    metaFiles := s.metaFiles ++ [(pidOf r ++ ".meta.xml", out.smd)]
    plotFiles := s.plotFiles ++ plotsFor b fgrid integrate r out.ssd
    ssd_array := s.ssd_array ++ [out.ssd]
    smd_array := s.smd_array ++ [out.smd] }

/-- The radius loop (src line 120): left fold of `loopStep` over the radius
grid, calling the engine once per radius. -/
def runLoop {σ μ : Type} (b : Bool) (fgrid integrate : σ → List ℚ)
    (engine : ℚ → MieOutput σ μ) (radii : List ℚ) (s : RunState σ μ) : RunState σ μ :=
  radii.foldl (fun st r => loopStep b fgrid integrate r (engine r) st) s

/-- Kind tag of a combined archive file write (data or meta). -/
inductive ArchiveKind where
  | data
  | meta
deriving DecidableEq

/-- Result of the whole run: final loop state, the two doubly-nested archive
sequences (src lines 257-262), and the combined archive file writes as
(kind, name, format) events (src lines 265-274). -/
structure RunResult (σ μ : Type) where
  final : RunState σ μ
  ssd_array_sqr : List (List σ)
  smd_array_sqr : List (List μ)
  archiveWrites : List (ArchiveKind × String × String)

/-- The whole reference run (src lines 117-274): process every radius of the
grid in order, wrap each accumulated archive sequence in one extra nesting
level, and write one combined archive file per kind in binary format. -/
def run {σ μ : Type} (b : Bool) (fgrid integrate : σ → List ℚ)
    (engine : ℚ → MieOutput σ μ) : RunResult σ μ :=
  let st := runLoop b fgrid integrate engine droplet_radii (initState σ μ)
  { final := st
    ssd_array_sqr := [st.ssd_array]
    smd_array_sqr := [st.smd_array]
    archiveWrites :=
      [(ArchiveKind.data, "MieSpheres_" ++ material ++ ".xml", "binary"),
       (ArchiveKind.meta, "MieSpheres_" ++ material ++ ".meta.xml", "binary")] }

/-- Closed form of the radius loop: every channel of the state is the initial
channel extended by one appended contribution per processed radius, in list
order. -/
lemma runLoop_eq {σ μ : Type} (b : Bool) (fgrid integrate : σ → List ℚ)
    (engine : ℚ → MieOutput σ μ) (radii : List ℚ) (s : RunState σ μ) :
    runLoop b fgrid integrate engine radii s =
      { dataFiles := s.dataFiles ++ radii.map (fun r => (pidOf r ++ ".xml", (engine r).ssd))
        metaFiles := s.metaFiles
          ++ radii.map (fun r => (pidOf r ++ ".meta.xml", (engine r).smd))
        plotFiles := s.plotFiles
          ++ (radii.map (fun r => plotsFor b fgrid integrate r (engine r).ssd)).flatten
        ssd_array := s.ssd_array ++ radii.map (fun r => (engine r).ssd)
        smd_array := s.smd_array ++ radii.map (fun r => (engine r).smd) } := by
  induction radii generalizing s with
  | nil => simp [runLoop]
  | cons r rest ih =>
      have h1 : runLoop b fgrid integrate engine (r :: rest) s
          = runLoop b fgrid integrate engine rest (loopStep b fgrid integrate r (engine r) s) :=
        rfl
      rw [h1, ih]
      simp [loopStep]


/-- `runLoop` from the empty initial state, with every channel in closed
form. -/
lemma runState_closed {σ μ : Type} (c : Bool) (fgrid integrate : σ → List ℚ)
    (engine : ℚ → MieOutput σ μ) (radii : List ℚ) :
    runLoop c fgrid integrate engine radii (initState σ μ)
      = { dataFiles := radii.map (fun r => (pidOf r ++ ".xml", (engine r).ssd))
          metaFiles := radii.map (fun r => (pidOf r ++ ".meta.xml", (engine r).smd))
          plotFiles := (radii.map
            (fun r => plotsFor c fgrid integrate r (engine r).ssd)).flatten
          ssd_array := radii.map (fun r => (engine r).ssd)
          smd_array := radii.map (fun r => (engine r).smd) } := by
  rw [runLoop_eq]
  simp [initState]

/-- Claim C5: radii are processed one at a time, sequentially, in ascending
grid order; each radius contributes exactly one record pair, written
immediately to its own files and appended once to the two in-memory archive
sequences, which therefore stay index-aligned (one entry per radius, in
radius order); the loop state only ever grows by appending, so no record or
array entry is modified after creation (the state after `n` radii is a
prefix of the state after `n + 1`). -/
theorem per_radius_processing {σ μ : Type} (b : Bool) (fgrid integrate : σ → List ℚ)
    (engine : ℚ → MieOutput σ μ) :
    (run b fgrid integrate engine).final.ssd_array
        = droplet_radii.map (fun r => (engine r).ssd)
    ∧ (run b fgrid integrate engine).final.smd_array
        = droplet_radii.map (fun r => (engine r).smd)
    ∧ (run b fgrid integrate engine).final.ssd_array.length
        = (run b fgrid integrate engine).final.smd_array.length
    ∧ (run b fgrid integrate engine).final.dataFiles
        = droplet_radii.map (fun r => (pidOf r ++ ".xml", (engine r).ssd))
    ∧ (run b fgrid integrate engine).final.metaFiles
        = droplet_radii.map (fun r => (pidOf r ++ ".meta.xml", (engine r).smd))
    ∧ List.Chain' (· < ·) droplet_radii
    ∧ ∀ n : ℕ,
        (runLoop b fgrid integrate engine (droplet_radii.take n) (initState σ μ)).ssd_array
          <+: (runLoop b fgrid integrate engine (droplet_radii.take (n + 1))
                (initState σ μ)).ssd_array := by
  have hcl := runState_closed b fgrid integrate engine droplet_radii
  have hs : (run b fgrid integrate engine).final.ssd_array
      = droplet_radii.map (fun r => (engine r).ssd) :=
    congrArg RunState.ssd_array hcl
  have ht : (run b fgrid integrate engine).final.smd_array
      = droplet_radii.map (fun r => (engine r).smd) :=
    congrArg RunState.smd_array hcl
  have hd : (run b fgrid integrate engine).final.dataFiles
      = droplet_radii.map (fun r => (pidOf r ++ ".xml", (engine r).ssd)) :=
    congrArg RunState.dataFiles hcl
  have hm : (run b fgrid integrate engine).final.metaFiles
      = droplet_radii.map (fun r => (pidOf r ++ ".meta.xml", (engine r).smd)) :=
    congrArg RunState.metaFiles hcl
  refine ⟨hs, ht, ?_, hd, hm, ?_, ?_⟩
  · rw [hs, ht]
    simp
  · rw [droplet_radii_eval]
    exact (List.chain'_iff_pairwise).mpr radiiLit47_pairwise
  · intro n
    have h1 := congrArg RunState.ssd_array
      (runState_closed b fgrid integrate engine (droplet_radii.take n))
    have h2 := congrArg RunState.ssd_array
      (runState_closed b fgrid integrate engine (droplet_radii.take (n + 1)))
    rw [h1, h2]
    exact List.IsPrefix.map _
      (List.take_prefix_take_left droplet_radii (Nat.le_succ n))

/-- Claim C9: the plotting flag has no effect on the saved data: two runs
differing only in the plotting flag produce identical per-radius data and
meta files, identical archive sequences, identical doubly-nested archive
payloads, and identical combined archive writes (only the plot-file channel
may differ). -/
theorem plotting_no_effect {σ μ : Type} (fgrid integrate : σ → List ℚ)
    (engine : ℚ → MieOutput σ μ) (b₁ b₂ : Bool) :
    (run b₁ fgrid integrate engine).final.dataFiles
        = (run b₂ fgrid integrate engine).final.dataFiles
    ∧ (run b₁ fgrid integrate engine).final.metaFiles
        = (run b₂ fgrid integrate engine).final.metaFiles
    ∧ (run b₁ fgrid integrate engine).final.ssd_array
        = (run b₂ fgrid integrate engine).final.ssd_array
    ∧ (run b₁ fgrid integrate engine).final.smd_array
        = (run b₂ fgrid integrate engine).final.smd_array
    ∧ (run b₁ fgrid integrate engine).ssd_array_sqr
        = (run b₂ fgrid integrate engine).ssd_array_sqr
    ∧ (run b₁ fgrid integrate engine).smd_array_sqr
        = (run b₂ fgrid integrate engine).smd_array_sqr
    ∧ (run b₁ fgrid integrate engine).archiveWrites
        = (run b₂ fgrid integrate engine).archiveWrites := by
  have hd : ∀ c : Bool, (run c fgrid integrate engine).final.dataFiles
      = droplet_radii.map (fun r => (pidOf r ++ ".xml", (engine r).ssd)) := fun c =>
    congrArg RunState.dataFiles (runState_closed c fgrid integrate engine droplet_radii)
  have hm : ∀ c : Bool, (run c fgrid integrate engine).final.metaFiles
      = droplet_radii.map (fun r => (pidOf r ++ ".meta.xml", (engine r).smd)) := fun c =>
    congrArg RunState.metaFiles (runState_closed c fgrid integrate engine droplet_radii)
  have hs : ∀ c : Bool, (run c fgrid integrate engine).final.ssd_array
      = droplet_radii.map (fun r => (engine r).ssd) := fun c =>
    congrArg RunState.ssd_array (runState_closed c fgrid integrate engine droplet_radii)
  have ht : ∀ c : Bool, (run c fgrid integrate engine).final.smd_array
      = droplet_radii.map (fun r => (engine r).smd) := fun c =>
    congrArg RunState.smd_array (runState_closed c fgrid integrate engine droplet_radii)
  refine ⟨(hd b₁).trans (hd b₂).symm, (hm b₁).trans (hm b₂).symm,
    (hs b₁).trans (hs b₂).symm, (ht b₁).trans (ht b₂).symm, ?_, ?_, rfl⟩
  · show [(run b₁ fgrid integrate engine).final.ssd_array]
        = [(run b₂ fgrid integrate engine).final.ssd_array]
    rw [(hs b₁).trans (hs b₂).symm]
  · show [(run b₁ fgrid integrate engine).final.smd_array]
        = [(run b₂ fgrid integrate engine).final.smd_array]
    rw [(ht b₁).trans (ht b₂).symm]

/-- Claim C4: after the radius loop, each archive sequence is wrapped in
exactly one extra nesting level — an outer sequence of length 1 whose single
entry is the full per-radius sequence — and each archive kind (data, meta)
is persisted exactly once, in binary format. -/
theorem archive_nesting {σ μ : Type} (b : Bool) (fgrid integrate : σ → List ℚ)
    (engine : ℚ → MieOutput σ μ) :
    (run b fgrid integrate engine).ssd_array_sqr
        = [(run b fgrid integrate engine).final.ssd_array]
    ∧ (run b fgrid integrate engine).smd_array_sqr
        = [(run b fgrid integrate engine).final.smd_array]
    ∧ (run b fgrid integrate engine).ssd_array_sqr.length = 1
    ∧ (run b fgrid integrate engine).smd_array_sqr.length = 1
    ∧ (run b fgrid integrate engine).archiveWrites
        = [(ArchiveKind.data, "MieSpheres_" ++ material ++ ".xml", "binary"),
           (ArchiveKind.meta, "MieSpheres_" ++ material ++ ".meta.xml", "binary")]
    ∧ ((run b fgrid integrate engine).archiveWrites.filter
        (fun w => decide (w.1 = ArchiveKind.data))).length = 1
    ∧ ((run b fgrid integrate engine).archiveWrites.filter
        (fun w => decide (w.1 = ArchiveKind.meta))).length = 1
    ∧ (run b fgrid integrate engine).archiveWrites.all (fun w => w.2.2 == "binary")
        = true :=
  ⟨rfl, rfl, rfl, rfl, rfl, rfl, rfl, rfl⟩

/-- Claim C3: for every assembled record the normalization check reports the
deviation series `(integral/2 − 1)·100` per frequency (in the reference
configuration, where plotting is on), and the check is diagnostic-only: the
record's data and meta files are written, and the record appended to the
archives, for any plotting flag and whatever the integral values are. -/
theorem normalization_diagnostic {σ μ : Type} (fgrid integrate : σ → List ℚ)
    (r : ℚ) (out : MieOutput σ μ) (s : RunState σ μ) :
    ("phasefunction_derivation_" ++ pidOf r ++ ".pdf",
        (integrate out.ssd).map (fun v => (v / 2 - 1) * 100))
      ∈ (loopStep plotting fgrid integrate r out s).plotFiles
    ∧ (∀ b : Bool, (loopStep b fgrid integrate r out s).dataFiles
        = s.dataFiles ++ [(pidOf r ++ ".xml", out.ssd)])
    ∧ (∀ b : Bool, (loopStep b fgrid integrate r out s).metaFiles
        = s.metaFiles ++ [(pidOf r ++ ".meta.xml", out.smd)])
    ∧ (∀ b : Bool, (loopStep b fgrid integrate r out s).ssd_array
        = s.ssd_array ++ [out.ssd])
    ∧ ∀ integrate₂ : σ → List ℚ,
        (loopStep plotting fgrid integrate₂ r out s).dataFiles
          = (loopStep plotting fgrid integrate r out s).dataFiles
        ∧ (loopStep plotting fgrid integrate₂ r out s).ssd_array
          = (loopStep plotting fgrid integrate r out s).ssd_array := by
  refine ⟨?_, fun b => rfl, fun b => rfl, fun b => rfl, fun i₂ => ⟨rfl, rfl⟩⟩
  simp [loopStep, plotsFor, plotting]

/-! ## Solver-instability policy (src lines 124-134) -/

/-- Failure kinds of the external Mie engine. -/
inductive MieFailure where
  | solverInstability
deriving DecidableEq

/-- Modelled from the spec: the edge-case policy of the external engine
`gmf.calc_arts_scattering_data` (its module is not part of this repository
snapshot).  `unstable` abstracts "the Mie solver result lies outside its
stable size-parameter regime"; when `ignoreLim` is set the engine tolerates
this and returns its best-effort/NaN-bearing output `best`, otherwise the
condition is fatal. -/
def calc_arts_scattering_data (σ μ : Type) (ignoreLim unstable : Bool)
    (best : MieOutput σ μ) : Except MieFailure (MieOutput σ μ) :=
  if unstable && !ignoreLim then Except.error MieFailure.solverInstability
  else Except.ok best

/-- `ignore_limit=True` (src line 132): the flag value passed on every
per-radius engine invocation of the reference run. -/
def ignore_limit_run : Bool := true

/-- Claim C6: every per-radius engine invocation of the reference run passes
`ignore_limit=True`, so a Mie-solver result outside its stable
size-parameter regime is always tolerated — the best-effort/NaN-bearing
result is returned and the run continues — and is never fatal for any radius
of the grid. -/
theorem solver_instability_tolerated (σ μ : Type) (r : ℚ) (_hr : r ∈ droplet_radii)
    (unstable : Bool) (best : MieOutput σ μ) :
    calc_arts_scattering_data σ μ ignore_limit_run unstable best = Except.ok best := by
  simp [calc_arts_scattering_data, ignore_limit_run]

unseal Rat.mul Rat.inv in
theorem solver_instability_tolerated_witness :
    (1 / 10000000 : ℚ) ∈ droplet_radii
    ∧ calc_arts_scattering_data Unit Unit ignore_limit_run true ⟨(), ()⟩
        = Except.ok ⟨(), ()⟩ := by
  have hm : (1 / 10000000 : ℚ) ∈ droplet_radii := by
    rw [droplet_radii_eval]; decide
  exact ⟨hm, solver_instability_tolerated Unit Unit (1 / 10000000) hm true ⟨(), ()⟩⟩

/-- Claim C7: the per-radius identifier is a deterministic function of the
radius — the radius in micrometers at fixed precision inside
`MieSphere_R<value>um` — unique across the 47 radii of the run and
filesystem-safe; it names the per-radius files `<pid>.xml` and
`<pid>.meta.xml`, while the combined archive pair is named from the material
(`MieSpheres_H2O_liquid.xml` / `.meta.xml`). -/
theorem record_identifiers {σ μ : Type} (b : Bool) (fgrid integrate : σ → List ℚ)
    (engine : ℚ → MieOutput σ μ) :
    (∀ r : ℚ, pidOf r = "MieSphere_R" ++ sci5 (r * 1000000) ++ "um")
    ∧ (droplet_radii.map pidOf).Nodup
    ∧ (droplet_radii.map pidOf).all filesystemSafe = true
    ∧ pidOf (1 / 10000000) = "MieSphere_R1.00000e-01um"
    ∧ (run b fgrid integrate engine).final.dataFiles
        = droplet_radii.map (fun r => (pidOf r ++ ".xml", (engine r).ssd))
    ∧ (run b fgrid integrate engine).final.metaFiles
        = droplet_radii.map (fun r => (pidOf r ++ ".meta.xml", (engine r).smd))
    ∧ (run b fgrid integrate engine).archiveWrites.map (fun w => w.2.1)
        = ["MieSpheres_" ++ material ++ ".xml", "MieSpheres_" ++ material ++ ".meta.xml"] := by
  refine ⟨fun r => rfl, ?_, ?_, pid_first, ?_, ?_, rfl⟩
  · rw [droplet_radii_eval, pids_eval]; exact pids_nodup
  · rw [droplet_radii_eval, pids_eval]; exact pids_safe
  · exact congrArg RunState.dataFiles
      (runState_closed b fgrid integrate engine droplet_radii)
  · exact congrArg RunState.metaFiles
      (runState_closed b fgrid integrate engine droplet_radii)
